import Mathlib

/-!
Shallow embedding of `src/rc/util/exc_string.py` (a Python 2 module).

Byte strings (`str`) are lists of byte values (Nat < 256); `unicode`
strings are lists of code points.  The module's possible runtime
exceptions are reified in the `Except PyExc` monad: a function that the
Python code lets raise to its caller is embedded as a function returning
`Except PyExc (List Nat)`, and a `try/except` in the source becomes a
`match` on that value.
-/

namespace ExcString

/-- Outcome of an object's custom textual conversion (its Python
method for producing a string).  Returning a non-string (such as the
object itself) or raising — including hitting the recursion limit on a
self-referential conversion — both make the host's conversion raise,
which the source's bare handler catches. -/
inductive StrBehavior where
  | returnsStr (s : List Nat)
  | returnsSelf
  | raisesExc
  deriving DecidableEq

/-- Python 2 values as far as `force_string` distinguishes them:
byte strings, unicode strings, `None`, integers, and arbitrary objects
carrying a class name and a textual-conversion behavior. -/
inductive PyVal where
  | pyStr (bs : List Nat)
  | pyUnicode (cs : List Nat)
  | pyNone
  | pyInt (n : Int)
  | obj (className : String) (strMethod : StrBehavior)
  deriving DecidableEq

/-- `v.__class__.__name__` for each embedded value kind. -/
def pyClassName : PyVal → String
  | .pyStr _ => "str"
  | .pyUnicode _ => "unicode"
  | .pyNone => "NoneType"
  | .pyInt _ => "int"
  | .obj c _ => c

/-- Runtime exceptions the embedded code can raise: the host's codec
lookup failure for an unknown encoding name, and any failure inside a
textual conversion. -/
inductive PyExc where
  | lookupError
  | strError
  deriving DecidableEq

/-- Bytes of an ASCII string literal (used for the source's literal
messages and separators). -/
def ascii (s : String) : List Nat := s.toList.map Char.toNat

/-- Modelled from the host runtime: a single-byte codec, as the set of
decodable bytes plus the code-point-to-byte encoding table.  A
decodable byte round-trips to itself through decode-then-encode. -/
structure Encoding where
  decodable : Nat → Bool
  encode : Nat → Option Nat

/-- Modelled from the host runtime: the "ascii" codec. -/
def asciiCodec : Encoding where
  decodable := fun b => decide (b < 128)
  encode := fun c => if c < 128 then some c else none

/-- Modelled from the host runtime: the "windows-1251" codec.  Byte
0x98 is the one hole in its decoding table.  The encoding table is
given on the regions the development uses: the ASCII range maps to
itself and the Cyrillic letter block U+0410-U+044F maps to 0xC0-0xFF
(plus U+0401/U+0451 for Io); remaining code points are treated as
unencodable. -/
def cp1251Codec : Encoding where
  decodable := fun b => decide (b ≠ 0x98)
  encode := fun c =>
    if c < 0x80 then some c
    else if c = 0x401 then some 0xA8
    else if c = 0x451 then some 0xB8
    else if 0x410 ≤ c ∧ c ≤ 0x44F then some (c - 0x410 + 0xC0)
    else none

/-- Modelled from the host runtime: the codec registry consulted by
`decode`/`encode`.  An unknown name makes those calls raise a lookup
failure before any error-handler applies. -/
def lookupEncoding : String → Option Encoding
  | "ascii" => some asciiCodec
  | "windows-1251" => some cp1251Codec
  | _ => none

/-- The module's global `exc_string_encoding = "windows-1251"`
(the initial value of the process-wide setting). -/
def exc_string_encoding : String := "windows-1251"

/-- `get_exc_string_encoding()`: reads the global setting (the global
is passed explicitly as the state). -/
def get_exc_string_encoding (st : String) : String := st

/-- `set_exc_string_encoding(encoding)`: replaces the global setting
(returns the new state). -/
def set_exc_string_encoding (encoding : String) (_st : String) : String := encoding

/-- `force_string_translate_map`: byte values of the source literal
`" ????????\t ?? ??????????????????"` (32 characters: a space, eight
question marks, a tab, a space, two question marks, a space, eighteen
question marks) followed by `chr(32)` through `chr(255)` unchanged. -/
def force_string_translate_map : List Nat :=
  [0x20,
   0x3F, 0x3F, 0x3F, 0x3F, 0x3F, 0x3F, 0x3F, 0x3F,
   0x09,
   0x20,
   0x3F, 0x3F,
   0x20,
   0x3F, 0x3F, 0x3F, 0x3F, 0x3F, 0x3F, 0x3F, 0x3F, 0x3F,
   0x3F, 0x3F, 0x3F, 0x3F, 0x3F, 0x3F, 0x3F, 0x3F, 0x3F]
  ++ List.range' 32 224

/-- One step of `v.translate(force_string_translate_map)`: each byte is
replaced by the map entry at its value. -/
def translate (b : Nat) : Nat := force_string_translate_map.getD b b

/-- `b.decode(enc, "replace").encode(enc, "replace")` on a single byte
of a single-byte codec: a decodable byte round-trips to itself; an
undecodable byte decodes to the replacement character, which is not
encodable and so comes back as `?` (0x3F). -/
def decodeEncodeReplace (e : Encoding) (b : Nat) : Nat :=
  if e.decodable b then b else 0x3F

/-- `u.encode(enc, "replace")` on a single code point: its table entry
if encodable, else `?` (0x3F). -/
def encodeReplace (e : Encoding) (c : Nat) : Nat :=
  (e.encode c).getD 0x3F

/-- The `isinstance(v, str)` branch of `force_string` once the codec is
in hand: re-encode every byte with replacement, then translate. -/
def sanitizeStr (e : Encoding) (bs : List Nat) : List Nat :=
  (bs.map (decodeEncodeReplace e)).map translate

/-- The `isinstance(v, unicode)` branch of `force_string` once the
codec is in hand: encode every code point with replacement, then
translate. -/
def sanitizeUnicode (e : Encoding) (cs : List Nat) : List Nat :=
  (cs.map (encodeReplace e)).map translate

/-- `str(v)`: identity on byte strings; ASCII-encodes unicode strings
(raising on any code point above 127, as the host's default strict
conversion does); `"None"` for `None`; decimal text for integers; and
for other objects the custom conversion's outcome, where returning a
non-string or raising both surface as a raised exception. -/
def pyStrFn : PyVal → Except PyExc (List Nat)
  | .pyStr bs => .ok bs
  | .pyUnicode cs =>
      if cs.all (fun c => decide (c < 128)) then .ok cs else .error .strError
  | .pyNone => .ok (ascii "None")
  | .pyInt n => .ok (ascii (toString n))
  | .obj _ m =>
      match m with
      | .returnsStr s => .ok s
      | .returnsSelf => .error .strError
      | .raisesExc => .error .strError

/-- `force_string` applied to a byte string: the codec lookup can raise
(it is outside the source's `try`), after which sanitization is pure. -/
def force_string_str (enc : String) (bs : List Nat) : Except PyExc (List Nat) :=
  match lookupEncoding enc with
  | none => .error .lookupError
  | some e => .ok (sanitizeStr e bs)

/-- `force_string(v)`.  Byte and unicode strings are sanitized through
the current encoding; any other value goes through `str(v)` inside a
`try`: a failure there returns the fixed message built from the class
name, and a success re-enters the byte-string branch (the source's
`return force_string(v)` on the now-`str` value, which the `else`
clause leaves unprotected, so a codec lookup failure still raises). -/
def force_stringE (enc : String) : PyVal → Except PyExc (List Nat)
  | .pyStr bs => force_string_str enc bs
  | .pyUnicode cs =>
      match lookupEncoding enc with
      | none => .error .lookupError
      | some e => .ok (sanitizeUnicode e cs)
  | v =>
      match pyStrFn v with
      | .error _ =>
          .ok (ascii ("unable to convert " ++ pyClassName v ++ " to string, str() failed"))
      | .ok s => force_string_str enc s

/-- A stack frame as yielded by the host's stack/traceback extraction:
`(filename, line number, function name, source text)`; the last field
is unused by the module. -/
structure Frame where
  f : List Nat
  n : Nat
  m : List Nat
  u : List Nat
  deriving DecidableEq

/-- `path.split(f)[1]`: the file path's suffix after its last slash
(the whole path when it has no slash). -/
def path_tail : List Nat → List Nat
  | [] => []
  | c :: rest => if 0x2F ∈ c :: rest then path_tail rest else c :: rest

/-- `"%s() (%s:%s)" % (m, path.split(f)[1], n)` for one frame. -/
def frame_format (fr : Frame) : List Nat :=
  fr.m ++ ascii "() (" ++ path_tail fr.f ++ ascii ":" ++ ascii (toString fr.n) ++ ascii ")"

/-- `sep.join(parts)`. -/
def join_sep (sep : List Nat) : List (List Nat) → List Nat
  | [] => []
  | [x] => x
  | x :: xs => x ++ sep ++ join_sep sep xs

/-- The list comprehension inside `trace_string`: sanitize each
formatted frame in order, raising out of the whole comprehension on the
first failure. -/
def sanitize_frames (enc : String) : List Frame → Except PyExc (List (List Nat))
  | [] => .ok []
  | fr :: rest =>
      match force_string_str enc (frame_format fr) with
      | .error err => .error err
      | .ok s =>
          match sanitize_frames enc rest with
          | .error err => .error err
          | .ok ss => .ok (s :: ss)

/-- `trace_string(tb=None)`.  `ambient` stands for
`extract_stack()[:-1]`, the current call stack minus `trace_string`'s
own frame; the source's `tb or extract_stack()[:-1]` falls back to it
when `tb` is `None` or empty.  The chosen frames are reversed
(`_reversed`), formatted, sanitized and joined with `" <- "`. -/
def trace_stringE (enc : String) (ambient : List Frame) (tb : Option (List Frame)) :
    Except PyExc (List Nat) :=
  let frames : List Frame :=
    match tb with
    | none => ambient
    | some [] => ambient
    | some l => l
  match sanitize_frames enc frames.reverse with
  | .error err => .error err
  | .ok parts => .ok (join_sep (ascii " <- ") parts)

/-- The ambient exception state as returned by `exc_info()` when an
exception is active: the type slot (an arbitrary value in Python 2,
since strings can be raised), its optional `__name__` attribute, the
optional value slot, and the frames `extract_tb` yields from the
traceback slot. -/
structure ExcInfo where
  ty : PyVal
  tyName : Option String
  val : Option PyVal
  tb : List Frame

/-- The source's name computation: `t.__name__` when the attribute
exists, else `type(t).__name__`. -/
def typeName (i : ExcInfo) : String :=
  match i.tyName with
  | some s => s
  | none => pyClassName i.ty

/-- The source's message source: the value slot when it is not `None`,
else the type slot. -/
def exc_message_source (i : ExcInfo) : PyVal :=
  match i.val with
  | some v => v
  | none => i.ty

/-- The body of `exc_string`'s `try`: `"no exception"` when no
exception is active, else the composition
`'<TypeName>("<SanitizedMessage>") in <stack-chain>'`. -/
def exc_stringE (enc : String) (ambient : List Frame) (st : Option ExcInfo) :
    Except PyExc (List Nat) :=
  match st with
  | none => .ok (ascii "no exception")
  | some i =>
      match force_stringE enc (exc_message_source i) with
      | .error err => .error err
      | .ok msg =>
          match trace_stringE enc ambient (some i.tb) with
          | .error err => .error err
          | .ok chain =>
              .ok (ascii (typeName i) ++ ascii "(\"" ++ msg ++ ascii "\") in " ++ chain)

/-- `exc_string()`: the body runs under a bare `except` that converts
any failure to the fixed literal. -/
def exc_string (enc : String) (ambient : List Frame) (st : Option ExcInfo) : List Nat :=
  match exc_stringE enc ambient st with
  | .ok s => s
  | .error _ => ascii "exc_string() failed to extract exception string"

/-- Range description of the translate map, written from the spec's
sentences for comparison with the source table: which control bytes
become a space, which become a question mark, and which pass through. -/
def translate_spec (b : Nat) : Nat :=
  if b = 0x00 ∨ b = 0x0A ∨ b = 0x0D then 0x20
  else if b ≤ 0x1F ∧ b ≠ 0x09 then 0x3F
  else b

/-- The pure value `force_string` returns once the encoding is known
to be supported (so the codec lookup cannot fail). -/
def force_string_val (e : Encoding) : PyVal → List Nat
  | .pyStr bs => sanitizeStr e bs
  | .pyUnicode cs => sanitizeUnicode e cs
  | v =>
      match pyStrFn v with
      | .error _ => ascii ("unable to convert " ++ pyClassName v ++ " to string, str() failed")
      | .ok s => sanitizeStr e s

/-- The pure value `trace_string` returns on a chosen frame list under
a supported encoding: reverse, format, sanitize, join. -/
def trace_string_pure (e : Encoding) (frames : List Frame) : List Nat :=
  join_sep (ascii " <- ") (frames.reverse.map fun fr => sanitizeStr e (frame_format fr))

set_option maxRecDepth 4000 in
theorem translate_eq_translate_spec : ∀ b < 256, translate b = translate_spec b := by decide

theorem force_string_str_ok {enc : String} {e : Encoding}
    (h : lookupEncoding enc = some e) (bs : List Nat) :
    force_string_str enc bs = .ok (sanitizeStr e bs) := by
  simp [force_string_str, h]

theorem force_stringE_ok {enc : String} {e : Encoding}
    (h : lookupEncoding enc = some e) (v : PyVal) :
    force_stringE enc v = .ok (force_string_val e v) := by
  cases v with
  | pyStr bs => simp [force_stringE, force_string_val, force_string_str_ok h]
  | pyUnicode cs => simp [force_stringE, force_string_val, h]
  | pyNone => simp [force_stringE, force_string_val, pyStrFn, force_string_str_ok h]
  | pyInt n => simp [force_stringE, force_string_val, pyStrFn, force_string_str_ok h]
  | obj c m =>
      cases m <;> simp [force_stringE, force_string_val, pyStrFn, force_string_str_ok h]

theorem sanitize_frames_ok {enc : String} {e : Encoding}
    (h : lookupEncoding enc = some e) :
    ∀ l : List Frame,
      sanitize_frames enc l = .ok (l.map fun fr => sanitizeStr e (frame_format fr))
  | [] => rfl
  | fr :: rest => by
      simp [sanitize_frames, force_string_str_ok h, sanitize_frames_ok h rest]

theorem trace_stringE_none_ok {enc : String} {e : Encoding}
    (h : lookupEncoding enc = some e) (ambient : List Frame) :
    trace_stringE enc ambient none = .ok (trace_string_pure e ambient) := by
  simp [trace_stringE, trace_string_pure, sanitize_frames_ok h]

theorem trace_stringE_some_ok {enc : String} {e : Encoding}
    (h : lookupEncoding enc = some e) (ambient frames : List Frame) :
    trace_stringE enc ambient (some frames) =
      .ok (trace_string_pure e (if frames = [] then ambient else frames)) := by
  cases frames <;> simp [trace_stringE, trace_string_pure, sanitize_frames_ok h]

theorem exc_stringE_some_ok {enc : String} {e : Encoding}
    (h : lookupEncoding enc = some e) (ambient : List Frame) (i : ExcInfo) :
    exc_stringE enc ambient (some i) =
      .ok (ascii (typeName i) ++ ascii "(\"" ++
           force_string_val e (exc_message_source i) ++ ascii "\") in " ++
           trace_string_pure e (if i.tb = [] then ambient else i.tb)) := by
  simp [exc_stringE, force_stringE_ok h, trace_stringE_some_ok h]

theorem sanitizeStr_length (e : Encoding) (bs : List Nat) :
    (sanitizeStr e bs).length = bs.length := by
  simp [sanitizeStr]

theorem sanitizeUnicode_length (e : Encoding) (cs : List Nat) :
    (sanitizeUnicode e cs).length = cs.length := by
  simp [sanitizeUnicode]

theorem getD_map_lt (f : Nat → Nat) :
    ∀ (l : List Nat) (i : Nat), i < l.length → (l.map f).getD i 0 = f (l.getD i 0)
  | a :: l, 0, _ => rfl
  | a :: l, i + 1, h => getD_map_lt f l i (by simpa using h)
  | [], i, h => absurd h (by simp)

theorem frame_format_ne_nil (fr : Frame) : frame_format fr ≠ [] := by
  intro hcontra
  have hlen := congrArg List.length hcontra
  simp [frame_format, ascii, List.length_append] at hlen

theorem sanitizeStr_frame_ne_nil (e : Encoding) (fr : Frame) :
    sanitizeStr e (frame_format fr) ≠ [] := by
  intro hc
  have hlen := congrArg List.length hc
  rw [sanitizeStr_length] at hlen
  exact frame_format_ne_nil fr (List.length_eq_zero.mp hlen)

theorem join_sep_ne_nil (sep x : List Nat) (xs : List (List Nat)) (hx : x ≠ []) :
    join_sep sep (x :: xs) ≠ [] := by
  cases xs with
  | nil => simpa [join_sep] using hx
  | cons y ys =>
      intro hcontra
      simp only [join_sep] at hcontra
      exact hx (List.append_eq_nil.mp (List.append_eq_nil.mp hcontra).1).1

theorem trace_string_pure_ne_nil (e : Encoding) (frames : List Frame)
    (h : frames ≠ []) : trace_string_pure e frames ≠ [] := by
  have hr : frames.reverse ≠ [] := by simpa [List.reverse_eq_nil_iff] using h
  obtain ⟨y, ys, hcons⟩ := List.exists_cons_of_ne_nil hr
  unfold trace_string_pure
  rw [hcons, List.map_cons]
  exact join_sep_ne_nil _ _ _ (sanitizeStr_frame_ne_nil e y)

/-- Claim C1, counterexample: the source translate map leaves tab (0x09)
unchanged instead of mapping it to a space, maps NUL (0x00) to a space
instead of a question mark, and maps carriage return (0x0D) to a space
even though it lies in the claimed question-mark range 0x0B-0x1F. -/
theorem c1_translate_map_counterexample :
    force_stringE "windows-1251" (.pyStr [0x09]) = .ok [0x09] ∧ (0x09 : Nat) ≠ 0x20 ∧
    force_stringE "windows-1251" (.pyStr [0x00]) = .ok [0x20] ∧ (0x20 : Nat) ≠ 0x3F ∧
    force_stringE "windows-1251" (.pyStr [0x0D]) = .ok [0x20] :=
  ⟨rfl, by decide, rfl, by decide, rfl⟩

/-- Claim C1 (amended): for a byte string, after re-encoding through a
supported encoding with replace-on-error, a byte the encoding decodes
is mapped by the translate step as follows: NUL (0x00), newline (0x0A)
and carriage return (0x0D) become a space; the other control bytes
0x01-0x08, 0x0B-0x0C and 0x0E-0x1F become a question mark; tab (0x09)
and every byte 0x20-0xFF pass through unchanged. -/
theorem c1_translate_map_amended (enc : String) (e : Encoding) (b : Nat)
    (h : lookupEncoding enc = some e) (hb : b < 256) (hd : e.decodable b = true) :
    force_stringE enc (.pyStr [b]) = .ok [translate_spec b] := by
  have ht := translate_eq_translate_spec b hb
  simp [force_stringE, force_string_str_ok h, sanitizeStr, decodeEncodeReplace, hd, ht]

/-- Witness for C1 (amended) at the concrete byte 0x07. -/
theorem c1_translate_map_amended_witness :
    force_stringE "windows-1251" (.pyStr [0x07]) = .ok [0x3F] :=
  c1_translate_map_amended "windows-1251" cp1251Codec 0x07 rfl (by decide) (by decide)

/-- Claim C2, counterexample: with the global encoding set to a name the
host's codec registry does not know, `force_string` on a plain byte
string and `trace_string` on the ambient stack both raise the host's
lookup failure to their caller; only `exc_string` contains it, turning
it into the fixed literal. -/
theorem c2_never_raises_counterexample :
    force_stringE "no-such-codec" (.pyStr [0x61]) = .error .lookupError ∧
    trace_stringE "no-such-codec" [⟨ascii "t.py", 3, ascii "f", []⟩] none =
      .error .lookupError ∧
    exc_string "no-such-codec" []
      (some ⟨.obj "ValueError" (.returnsStr (ascii "boom")), some "ValueError",
             some (.pyStr (ascii "boom")), [⟨ascii "t.py", 3, ascii "f", []⟩]⟩) =
      ascii "exc_string() failed to extract exception string" :=
  ⟨rfl, rfl, rfl⟩

/-- Claim C2 (amended): provided the global encoding names a supported
encoding, none of `force_string`, `trace_string` and `exc_string`
raises to its caller; and independently of that, `exc_string` always
returns its body's value when the body succeeds and the literal
`"exc_string() failed to extract exception string"` when it fails. -/
theorem c2_never_raises_amended (enc : String) (v : PyVal) (ambient : List Frame)
    (tbOpt : Option (List Frame)) (st : Option ExcInfo)
    (h : (lookupEncoding enc).isSome = true) :
    (force_stringE enc v).isOk = true ∧
    (trace_stringE enc ambient tbOpt).isOk = true ∧
    (exc_stringE enc ambient st).isOk = true ∧
    exc_string enc ambient st =
      (exc_stringE enc ambient st).toOption.getD
        (ascii "exc_string() failed to extract exception string") := by
  obtain ⟨e, he⟩ := Option.isSome_iff_exists.mp h
  refine ⟨?_, ?_, ?_, ?_⟩
  · rw [force_stringE_ok he]
    rfl
  · cases tbOpt with
    | none =>
        rw [trace_stringE_none_ok he]
        rfl
    | some l =>
        rw [trace_stringE_some_ok he]
        rfl
  · cases st with
    | none => rfl
    | some i =>
        rw [exc_stringE_some_ok he]
        rfl
  · cases hx : exc_stringE enc ambient st <;> simp [exc_string, hx, Except.toOption]

/-- Witness for C2 (amended) at the supported encoding "ascii". -/
theorem c2_never_raises_amended_witness :
    (lookupEncoding "ascii").isSome = true ∧
    ((force_stringE "ascii" PyVal.pyNone).isOk = true ∧
     (trace_stringE "ascii" [] none).isOk = true ∧
     (exc_stringE "ascii" [] none).isOk = true ∧
     exc_string "ascii" [] none =
       (exc_stringE "ascii" [] none).toOption.getD
         (ascii "exc_string() failed to extract exception string")) :=
  ⟨rfl, c2_never_raises_amended "ascii" PyVal.pyNone [] none none rfl⟩

/-- Claim C3: under a supported encoding, sanitizing text preserves the
length exactly, and every unit the encoding cannot represent (an
unencodable code point of a unicode string, an undecodable byte of a
byte string) comes out as the placeholder `?` (0x3F). -/
theorem c3_replacement_length (enc : String) (e : Encoding)
    (h : lookupEncoding enc = some e) (cs out : List Nat)
    (hout : force_stringE enc (.pyUnicode cs) = .ok out) :
    (out.length = cs.length ∧
      ∀ i, i < cs.length → e.encode (cs.getD i 0) = none → out.getD i 0 = 0x3F) ∧
    ∀ bs outb, force_stringE enc (.pyStr bs) = .ok outb →
      outb.length = bs.length ∧
      ∀ i, i < bs.length → e.decodable (bs.getD i 0) = false → outb.getD i 0 = 0x3F := by
  have h2 := force_stringE_ok h (.pyUnicode cs)
  rw [hout] at h2
  have hout2 : out = sanitizeUnicode e cs := by
    injection h2
  constructor
  · subst hout2
    refine ⟨sanitizeUnicode_length e cs, ?_⟩
    intro i hi henc
    have hi1 : i < (cs.map (encodeReplace e)).length := by simpa using hi
    unfold sanitizeUnicode
    rw [getD_map_lt _ _ _ hi1, getD_map_lt _ _ _ hi]
    unfold encodeReplace
    rw [henc]
    rfl
  · intro bs outb houtb
    have h3 := force_stringE_ok h (.pyStr bs)
    rw [houtb] at h3
    have houtb2 : outb = sanitizeStr e bs := by
      injection h3
    subst houtb2
    refine ⟨sanitizeStr_length e bs, ?_⟩
    intro i hi hd
    have hi1 : i < (bs.map (decodeEncodeReplace e)).length := by simpa using hi
    unfold sanitizeStr
    rw [getD_map_lt _ _ _ hi1, getD_map_lt _ _ _ hi]
    unfold decodeEncodeReplace
    rw [hd]
    rfl

/-- Witness for C3 at the "ascii" encoding with one Cyrillic code point. -/
theorem c3_replacement_length_witness :
    force_stringE "ascii" (.pyUnicode [0x410, 0x61]) = .ok [0x3F, 0x61] ∧
    asciiCodec.encode 0x410 = none ∧
    ([0x3F, 0x61] : List Nat).getD 0 0 = 0x3F :=
  ⟨rfl, rfl,
    ((c3_replacement_length "ascii" asciiCodec rfl [0x410, 0x61] [0x3F, 0x61] rfl).1).2
      0 (by decide) rfl⟩

/-- Claim C4: on an explicitly supplied nonempty frame list,
`trace_string` formats each frame as function-name, `"() ("`, the file
path stripped of directory components, `":"`, the line number and
`")"`, sanitizes each formatted frame through `force_string`, reverses
the list to innermost-first order and joins with `" <- "`. -/
theorem c4_trace_format (enc : String) (e : Encoding) (ambient frames : List Frame)
    (h : lookupEncoding enc = some e) (hne : frames ≠ []) :
    (trace_stringE enc ambient (some frames) =
      .ok (join_sep (ascii " <- ")
        (frames.reverse.map fun fr => sanitizeStr e (frame_format fr)))) ∧
    ∀ fr : Frame,
      force_stringE enc (.pyStr (frame_format fr)) = .ok (sanitizeStr e (frame_format fr)) := by
  constructor
  · rw [trace_stringE_some_ok h, if_neg hne]
    rfl
  · intro fr
    exact force_stringE_ok h _

/-- Witness for C4 on two concrete frames given outermost-first. -/
theorem c4_trace_format_witness :
    trace_stringE "ascii" []
      (some [⟨ascii "/a/test.py", 7, ascii "foo", []⟩,
             ⟨ascii "test.py", 5, ascii "bar", []⟩]) =
      .ok (ascii "bar() (test.py:5) <- foo() (test.py:7)") ∧
    force_stringE "ascii" (.pyStr (frame_format ⟨ascii "/a/test.py", 7, ascii "foo", []⟩)) =
      .ok (sanitizeStr asciiCodec (frame_format ⟨ascii "/a/test.py", 7, ascii "foo", []⟩)) :=
  ⟨(c4_trace_format "ascii" asciiCodec []
      [⟨ascii "/a/test.py", 7, ascii "foo", []⟩, ⟨ascii "test.py", 5, ascii "bar", []⟩]
      rfl (by decide)).1,
   (c4_trace_format "ascii" asciiCodec []
      [⟨ascii "/a/test.py", 7, ascii "foo", []⟩, ⟨ascii "test.py", 5, ascii "bar", []⟩]
      rfl (by decide)).2 _⟩

/-- Claim C5: for an active exception under a supported encoding,
`exc_string` takes the sanitized value slot as the message when that
slot is present and the sanitized type slot otherwise, and returns the
type name, `("`, the sanitized message, `") in ` and the stack chain of
the exception's traceback frames. -/
theorem c5_exc_compose (enc : String) (e : Encoding) (ambient : List Frame) (i : ExcInfo)
    (h : lookupEncoding enc = some e) (htb : i.tb ≠ []) :
    exc_string enc ambient (some i) =
      ascii (typeName i) ++ ascii "(\"" ++ force_string_val e (exc_message_source i) ++
        ascii "\") in " ++ trace_string_pure e i.tb ∧
    force_stringE enc (exc_message_source i) =
      .ok (force_string_val e (exc_message_source i)) := by
  constructor
  · simp [exc_string, exc_stringE_some_ok h, htb]
  · exact force_stringE_ok h _

/-- Witness for C5 on a concrete active exception with one traceback
frame. -/
theorem c5_exc_compose_witness :
    exc_string "ascii" []
      (some ⟨.obj "ValueError" (.returnsStr (ascii "boom")), some "ValueError",
             some (.pyStr (ascii "boom")), [⟨ascii "t.py", 3, ascii "f", []⟩]⟩) =
      ascii "ValueError(\"boom\") in f() (t.py:3)" :=
  (c5_exc_compose "ascii" asciiCodec []
    ⟨.obj "ValueError" (.returnsStr (ascii "boom")), some "ValueError",
     some (.pyStr (ascii "boom")), [⟨ascii "t.py", 3, ascii "f", []⟩]⟩
    rfl (by decide)).1

/-- Claim C6: for an object whose textual conversion fails — by raising
(including via a self-referential conversion hitting the recursion
limit) or by returning a non-string such as the object itself —
`force_string` returns exactly the fixed message naming the object's
runtime class, under every state of the global encoding. -/
theorem c6_unconvertible (enc name : String) (m : StrBehavior)
    (hm : m = .returnsSelf ∨ m = .raisesExc) :
    force_stringE enc (.obj name m) =
      .ok (ascii ("unable to convert " ++ name ++ " to string, str() failed")) := by
  rcases hm with rfl | rfl <;> rfl

/-- Witness for C6 on a class named Bar whose conversion returns the
object itself. -/
theorem c6_unconvertible_witness :
    force_stringE "windows-1251" (.obj "Bar" .returnsSelf) =
      .ok (ascii "unable to convert Bar to string, str() failed") :=
  c6_unconvertible "windows-1251" "Bar" .returnsSelf (Or.inl rfl)

/-- Claim C7: with no active exception, `exc_string` returns exactly
the literal `"no exception"`, whatever the encoding state and ambient
stack. -/
theorem c7_no_exception (enc : String) (ambient : List Frame) :
    exc_string enc ambient none = ascii "no exception" := rfl

/-- Claim C8: `set_exc_string_encoding` followed by
`get_exc_string_encoding` returns the name that was set, and the
setting changes sanitization immediately: two Cyrillic code points
survive under "windows-1251" but collapse to question marks of the
same length under "ascii". -/
theorem c8_encoding_effect :
    (∀ st name : String, get_exc_string_encoding (set_exc_string_encoding name st) = name) ∧
    force_stringE "windows-1251" (.pyUnicode [0x414, 0x41C]) = .ok [0xC4, 0xCC] ∧
    force_stringE "ascii" (.pyUnicode [0x414, 0x41C]) = .ok [0x3F, 0x3F] ∧
    ([0xC4, 0xCC] : List Nat) ≠ [0x3F, 0x3F] ∧
    ([0x3F, 0x3F] : List Nat).length = ([0x414, 0x41C] : List Nat).length :=
  ⟨fun _ _ => rfl, rfl, rfl, by decide, rfl⟩

/-- Claim C9: under the module's initial encoding, `force_string(None)`
is the string "None" and `force_string(10)` is the string "10". -/
theorem c9_none_and_int :
    force_stringE exc_string_encoding .pyNone = .ok (ascii "None") ∧
    force_stringE exc_string_encoding (.pyInt 10) = .ok (ascii "10") :=
  ⟨rfl, rfl⟩

/-- Claim C10: `trace_string` on an explicitly supplied empty frame
list treats it as absent and behaves exactly like `trace_string` with
no argument, so with a nonempty ambient stack it does not return the
empty string. -/
theorem c10_empty_frames_fallback (enc : String) (e : Encoding) (ambient : List Frame)
    (h : lookupEncoding enc = some e) (hamb : ambient ≠ []) :
    trace_stringE enc ambient (some []) = trace_stringE enc ambient none ∧
    trace_stringE enc ambient (some []) ≠ .ok [] := by
  constructor
  · rfl
  · rw [trace_stringE_some_ok h, if_pos rfl]
    intro hcontra
    exact trace_string_pure_ne_nil e ambient hamb (Except.ok.inj hcontra)

/-- Witness for C10 with a one-frame ambient stack. -/
theorem c10_empty_frames_fallback_witness :
    trace_stringE "ascii" [⟨ascii "t.py", 3, ascii "f", []⟩] (some []) =
      trace_stringE "ascii" [⟨ascii "t.py", 3, ascii "f", []⟩] none ∧
    trace_stringE "ascii" [⟨ascii "t.py", 3, ascii "f", []⟩] (some []) ≠ .ok [] :=
  c10_empty_frames_fallback "ascii" asciiCodec [⟨ascii "t.py", 3, ascii "f", []⟩]
    rfl (by decide)

end ExcString
